import Mathlib

/-!
Verification development for the Umebot robot backend.

This file gives a shallow embedding, in Lean, of the parts of the Python
backend that the verified properties are about:

* the gamepad motion arbiter (`motion/MotionGamePad.py`) and its facade
  (`MotionManager.py`);
* the conversation core (`ConversationManager.py`) and the orchestrator's
  input-processing routine and STT adapters (`Init_System.py`);
* the tablet wire protocol validation (`tabletserver/Messages.py`) and the
  WebSocket endpoint / dispatcher (`tabletserver/Endpoints.py`,
  `TabletInterface.py`);
* the local-microphone capture callback (`audio/MicLocal.py`).

Python floats are modelled as rationals, Python dicts that carry fixed keys
as structures, and the threaded loops as explicit event-step functions; all
external side effects (hardware calls, database writes, WebSocket frames)
are collected in explicit emission lists.
-/

namespace Umebot

/-! ### Motion subsystem: `motion/MotionGamePad.py`

Module-level constants of `MotionGamePad.py` (lines 32-37). -/

def DEFAULT_SPEED_MODIFIER_INIT : ℚ := 1/2

def MIN_SPEED_MODIFIER_LIMIT : ℚ := 1/10

def MAX_SPEED_MODIFIER_LIMIT : ℚ := 1

def SPEED_MODIFIER_INCREMENT_STEP : ℚ := 1/10

def JOYSTICK_DEADZONE : ℚ := 8/100

def GAMEPAD_DATA_TIMEOUT_SEC : ℚ := 35/100

/-- The literal `0.001` threshold used throughout `_processing_loop` when
comparing velocities (`abs(v) > 0.001`, `abs(vx_t - last) > 0.001`). -/
def sendThreshold : ℚ := 1/1000

/-- A base-velocity triple `(vx, vy, vtheta)` as passed to
`RobotHardwareController.set_base_velocities`. -/
structure Vel where
  vx : ℚ
  vy : ℚ
  vtheta : ℚ
  deriving DecidableEq, Repr

/-- The zero velocity triple `(0.0, 0.0, 0.0)`. -/
def Vel.zero : Vel := ⟨0, 0, 0⟩

/-- One joystick of the `gamepad_state` payload (`{"x": .., "y": ..}`). -/
structure Stick where
  x : ℚ
  y : ℚ
  deriving DecidableEq, Repr

/-- The `dpad_events` group of a validated `gamepad_state` payload. -/
structure DpadEvents where
  up : Bool
  down : Bool
  left : Bool
  right : Bool
  deriving DecidableEq, Repr

/-- The `action_button_events` group of a validated `gamepad_state` payload. -/
structure ActionButtonEvents where
  a : Bool
  b : Bool
  x : Bool
  y : Bool
  deriving DecidableEq, Repr

/-- The `stick_button_states` group of a validated `gamepad_state` payload. -/
structure StickButtonStates where
  l3_pressed : Bool
  r3_pressed : Bool
  deriving DecidableEq, Repr

/-- A gamepad payload as it reaches the motion code, i.e. after
`deserialize_client_message` has validated all five groups and their keys
(`tabletserver/Messages.py`, lines 215-233). -/
structure GamepadPayload where
  left_stick : Stick
  right_stick : Stick
  dpad_events : DpadEvents
  action_button_events : ActionButtonEvents
  stick_button_states : StickButtonStates
  deriving DecidableEq, Repr

/-- The mutable state of a `MotionGamePad` instance.  `prev_dpad_events` and
`prev_action_button_events` start as empty dicts in Python; `none` models the
empty dict, `some` a populated one. -/
structure MGPState where
  emergency_stop_active : Bool
  latest_gamepad_payload : Option GamepadPayload
  new_data_event : Bool
  last_sent_velocities : Vel
  current_speed_modifier : ℚ
  current_animation_layer : ℕ
  num_animation_layers : ℕ
  prev_dpad_events : Option DpadEvents
  prev_action_button_events : Option ActionButtonEvents
  deriving DecidableEq, Repr

/-- A call into `RobotHardwareController` made by the motion code. -/
inductive HwCmd where
  | setBaseVelocities (v : Vel)
  | hardwareEmergencyStop
  deriving DecidableEq, Repr

/-- One hardware call together with the value of
`_emergency_stop_active_flag` at the moment the call is made. -/
structure HwCall where
  estopFlagAtCall : Bool
  cmd : HwCmd
  deriving DecidableEq, Repr

namespace MotionGamePad

/-- State of a `MotionGamePad` right after `__init__` plus `start_processing`
(which clears the e-stop flag, the data event and the pending payload;
`_last_sent_velocities` starts at zero in `__init__`).  The constructor clamps
the initial speed modifier into `[MIN, MAX]` and falls back to layer 0 when the
default layer is out of range (`MotionGamePad.py`, lines 79-90, 389-392). -/
def init (numLayers defaultLayer : ℕ) (initialSpeedModifier : ℚ) : MGPState where
  emergency_stop_active := false
  latest_gamepad_payload := none
  new_data_event := false
  last_sent_velocities := Vel.zero
  current_speed_modifier :=
    max MIN_SPEED_MODIFIER_LIMIT (min MAX_SPEED_MODIFIER_LIMIT initialSpeedModifier)
  current_animation_layer := if defaultLayer < numLayers then defaultLayer else 0
  num_animation_layers := numLayers
  prev_dpad_events := none
  prev_action_button_events := none

/-- The speed-modifier part of `_process_dpad_events` (lines 171-177): a
rising edge on up raises the modifier clamped at `MAX`, then a rising edge on
down lowers the (already updated) modifier clamped at `MIN`. -/
def dpad_speed_modifier_update (m : ℚ) (upEdge downEdge : Bool) : ℚ :=
  let m1 := if upEdge then
      min MAX_SPEED_MODIFIER_LIMIT (m + SPEED_MODIFIER_INCREMENT_STEP)
    else m
  if downEdge then max MIN_SPEED_MODIFIER_LIMIT (m1 - SPEED_MODIFIER_INCREMENT_STEP) else m1

/-- The animation-layer part of `_process_dpad_events` (lines 180-188): when
layers are configured, left/right edges rotate the layer index modulo the
layer count (left first, right applied to the updated index). -/
def dpad_layer_update (layer n : ℕ) (leftEdge rightEdge : Bool) : ℕ :=
  let l1 := if 0 < n && leftEdge then (layer + n - 1) % n else layer
  if 0 < n && rightEdge then (l1 + 1) % n else l1

/-- `_process_dpad_events` (lines 166-190): rising edges are taken against the
previously stored D-pad state (an empty dict before the first payload); the
previous D-pad state is then replaced by the current one. -/
def process_dpad_events (dpad : DpadEvents) (s : MGPState) : MGPState :=
  let prev := s.prev_dpad_events.getD ⟨false, false, false, false⟩
  { s with
    current_speed_modifier :=
      dpad_speed_modifier_update s.current_speed_modifier
        (dpad.up && !prev.up) (dpad.down && !prev.down)
    current_animation_layer :=
      dpad_layer_update s.current_animation_layer s.num_animation_layers
        (dpad.left && !prev.left) (dpad.right && !prev.right)
    prev_dpad_events := some dpad }

/-- `_process_action_button_events` (lines 199-244): every control path of the
method ends by storing the current events as the previous state; the dispatch
of configured animations goes to the external `AnimationSpeechController` and
does not touch the `MotionGamePad` state or the hardware velocities. -/
def process_action_button_events (events : ActionButtonEvents) (s : MGPState) : MGPState :=
  { s with prev_action_button_events := some events }

/-- The joystick-to-velocity computation of `_processing_loop`
(lines 287-331): sign adjustment (`vx_in = raw_ly`, `vy_in = -raw_lx`,
`vtheta_in = -raw_rx`), dead-zone of `JOYSTICK_DEADZONE` applied against the
raw axis values, then scaling by the current speed modifier. -/
def compute_velocities (s : MGPState) (p : GamepadPayload) : Vel :=
  let raw_ly := p.left_stick.y
  let raw_lx := p.left_stick.x
  let raw_rx := p.right_stick.x
  let vx_in := raw_ly
  let vy_in := -raw_lx
  let vtheta_in := -raw_rx
  let vx_applied := if JOYSTICK_DEADZONE < |raw_ly| then vx_in else 0
  let vy_applied := if JOYSTICK_DEADZONE < |raw_lx| then vy_in else 0
  let vtheta_applied := if JOYSTICK_DEADZONE < |raw_rx| then vtheta_in else 0
  ⟨vx_applied * s.current_speed_modifier,
   vy_applied * s.current_speed_modifier,
   vtheta_applied * s.current_speed_modifier⟩

/-- The `should_send_velocities` decision of `_processing_loop`
(lines 334-341): send when some axis changed by more than `0.001`, or when
the robot was stopped (all previous axes below `0.001`) and now moves. -/
def should_send_velocities (last v : Vel) : Bool :=
  (decide (sendThreshold < |v.vx - last.vx|)
    || decide (sendThreshold < |v.vy - last.vy|)
    || decide (sendThreshold < |v.vtheta - last.vtheta|))
  || ((decide (sendThreshold < |v.vx|)
        || decide (sendThreshold < |v.vy|)
        || decide (sendThreshold < |v.vtheta|))
      && (decide (|last.vx| < sendThreshold)
          && decide (|last.vy| < sendThreshold)
          && decide (|last.vtheta| < sendThreshold)))

/-- The `any(abs(v) > 0.001 for v in self._last_sent_velocities.values())`
test used by the e-stop branch (line 259) and the dead-man branch (line 352). -/
def any_velocity_above_eps (v : Vel) : Bool :=
  decide (sendThreshold < |v.vx|)
    || decide (sendThreshold < |v.vy|)
    || decide (sendThreshold < |v.vtheta|)

/-- The dead-man branch of `_processing_loop` (lines 349-355), reached when
`Event.wait` timed out or when the loop was woken without a pending payload:
if the e-stop flag is (still) unset and the robot was moving, send zero
velocities once. -/
def dead_man_branch (s1 : MGPState) : MGPState × List HwCall :=
  if !s1.emergency_stop_active then
    if any_velocity_above_eps s1.last_sent_velocities then
      ({ s1 with last_sent_velocities := Vel.zero },
       [⟨s1.emergency_stop_active, .setBaseVelocities Vel.zero⟩])
    else (s1, [])
  else (s1, [])

/-- The payload-processing branch of `_processing_loop` (lines 277-348):
process D-pad events, action-button events, compute the joystick velocities
and send them when `should_send_velocities` holds. -/
def process_payload_branch (s1 : MGPState) (p : GamepadPayload) : MGPState × List HwCall :=
  let s2 := process_dpad_events p.dpad_events s1
  let s3 := process_action_button_events p.action_button_events s2
  let v := compute_velocities s3 p
  if should_send_velocities s3.last_sent_velocities v then
    ({ s3 with last_sent_velocities := v },
     [⟨s3.emergency_stop_active, .setBaseVelocities v⟩])
  else (s3, [])

/-- Events that drive a `MotionGamePad` instance: an external
`update_gamepad_state` call, one iteration of the `_processing_loop` body,
and the external `trigger_emergency_stop` / `clear_emergency_stop` calls.
The loop iteration reads `new_data_event` in place of `Event.wait(timeout)`:
an unset event is the 350 ms timeout of the dead-man mechanism. -/
inductive MGPEvent where
  | updateGamepadState (p : GamepadPayload)
  | loopIteration
  | triggerEmergencyStop
  | clearEmergencyStop
  deriving DecidableEq, Repr

/-- One event of a `MotionGamePad`, returning the new state and the hardware
calls made during the event, each tagged with the e-stop flag value at the
moment of the call.

* `updateGamepadState` (lines 109-119): ignored entirely when the internal
  e-stop flag is set; otherwise stores the payload and sets the data event.
* `triggerEmergencyStop` (lines 123-137): sets the flag, clears the pending
  payload, wakes the loop, forwards the hardware e-stop, zeroes
  `_last_sent_velocities` and sends zero velocities.
* `clearEmergencyStop` (lines 141-148): clears the flag, the pending payload
  and the data event.
* `loopIteration` (lines 252-359): e-stop branch sends zero once while the
  robot was moving; the data branch processes D-pad, action buttons and
  joysticks and sends the computed triple when `should_send_velocities`;
  the timeout branch is the dead-man stop. -/
def step (s : MGPState) : MGPEvent → MGPState × List HwCall
  | .updateGamepadState p =>
    if s.emergency_stop_active then (s, [])
    else ({ s with latest_gamepad_payload := some p, new_data_event := true }, [])
  | .triggerEmergencyStop =>
    ({ s with
        emergency_stop_active := true
        latest_gamepad_payload := none
        new_data_event := true
        last_sent_velocities := Vel.zero },
     [⟨true, .hardwareEmergencyStop⟩, ⟨true, .setBaseVelocities Vel.zero⟩])
  | .clearEmergencyStop =>
    ({ s with
        emergency_stop_active := false
        latest_gamepad_payload := none
        new_data_event := false }, [])
  | .loopIteration =>
    if s.emergency_stop_active then
      if any_velocity_above_eps s.last_sent_velocities then
        ({ s with last_sent_velocities := Vel.zero },
         [⟨true, .setBaseVelocities Vel.zero⟩])
      else (s, [])
    else
      if s.new_data_event then
        let s1 : MGPState :=
          { s with new_data_event := false, latest_gamepad_payload := none }
        match s.latest_gamepad_payload with
        | some p => process_payload_branch s1 p
        | none => dead_man_branch s1
      else dead_man_branch s

/-- Run a `MotionGamePad` over a sequence of events, collecting every
hardware call in order. -/
def run (s : MGPState) : List MGPEvent → MGPState × List HwCall
  | [] => (s, [])
  | e :: es =>
    let r1 := step s e
    let r2 := run r1.1 es
    (r2.1, r1.2 ++ r2.2)

end MotionGamePad

/-! ### Motion facade: `MotionManager.py` -/

/-- The state of a `MotionManager`: its control-mode string (one of
`"idle"`, `"gamepad"`, `"emergency_stopped"`) and its owned
`MotionGamePad` instance. -/
structure MMState where
  current_control_mode : String
  gamepad_controller : MGPState
  deriving DecidableEq, Repr

namespace MotionManager

/-- `MotionManager.__init__` (lines 44-80): the initial control mode is
`"idle"` and a fresh `MotionGamePad` is created with the given animation
configuration and initial speed modifier. -/
def init (numLayers defaultLayer : ℕ) (initialSpeedModifier : ℚ) : MMState where
  current_control_mode := "idle"
  gamepad_controller := MotionGamePad.init numLayers defaultLayer initialSpeedModifier

/-- `_trigger_internal_emergency_stop` (lines 161-175): when not already in
`"emergency_stopped"`, switch the mode to it and forward
`trigger_emergency_stop` to the `MotionGamePad`. -/
def trigger_internal_emergency_stop (s : MMState) : MMState × List HwCall :=
  if s.current_control_mode ≠ "emergency_stopped" then
    let r := MotionGamePad.step s.gamepad_controller .triggerEmergencyStop
    ({ current_control_mode := "emergency_stopped", gamepad_controller := r.1 }, r.2)
  else (s, [])

/-- `_clear_internal_emergency_stop` (lines 178-186): when in
`"emergency_stopped"`, forward `clear_emergency_stop` to the `MotionGamePad`
and return to mode `"gamepad"`. -/
def clear_internal_emergency_stop (s : MMState) : MMState × List HwCall :=
  if s.current_control_mode = "emergency_stopped" then
    let r := MotionGamePad.step s.gamepad_controller .clearEmergencyStop
    ({ current_control_mode := "gamepad", gamepad_controller := r.1 }, r.2)
  else (s, [])

/-- `_handle_gamepad_payload_from_tablet` (lines 194-220): (1) L3/R3 pressed
outside e-stop triggers the internal emergency stop and stops processing the
payload; (2) a payload without L3/R3 while in e-stop clears the e-stop; (3)
in mode `"gamepad"` the payload is forwarded to
`MotionGamePad.update_gamepad_state`; in `"idle"` it is ignored. -/
def handle_gamepad_payload_from_tablet (s : MMState) (payload : GamepadPayload) :
    MMState × List HwCall :=
  let l3 := payload.stick_button_states.l3_pressed
  let r3 := payload.stick_button_states.r3_pressed
  if (l3 || r3) && decide (s.current_control_mode ≠ "emergency_stopped") then
    trigger_internal_emergency_stop s
  else
    let r1 :=
      if decide (s.current_control_mode = "emergency_stopped") && !(l3 || r3) then
        clear_internal_emergency_stop s
      else (s, [])
    if r1.1.current_control_mode = "gamepad" then
      let r2 := MotionGamePad.step r1.1.gamepad_controller (.updateGamepadState payload)
      ({ r1.1 with gamepad_controller := r2.1 }, r1.2 ++ r2.2)
    else r1

/-- `_handle_gamepad_emergency_stop_event` (lines 224-226): the explicit
e-stop callback simply triggers the internal emergency stop. -/
def handle_gamepad_emergency_stop_event (s : MMState) : MMState × List HwCall :=
  trigger_internal_emergency_stop s

end MotionManager

/-! ### Invariants of the motion arbiter -/

namespace MotionGamePad

/-- A velocity component actually sent to the hardware is either exactly `0`
(dead-zone) or exceeds the `0.001` threshold in absolute value. -/
def velCompOk (q : ℚ) : Prop := q = 0 ∨ sendThreshold < |q|

/-- All three components of a velocity triple satisfy `velCompOk`. -/
def velOk (v : Vel) : Prop := velCompOk v.vx ∧ velCompOk v.vy ∧ velCompOk v.vtheta

/-- The speed modifier stays inside `[MIN, MAX] = [0.1, 1.0]`. -/
def modifierOk (m : ℚ) : Prop :=
  MIN_SPEED_MODIFIER_LIMIT ≤ m ∧ m ≤ MAX_SPEED_MODIFIER_LIMIT

/-- State invariant of `MotionGamePad`, preserved by every event. -/
def Inv (s : MGPState) : Prop :=
  modifierOk s.current_speed_modifier ∧ velOk s.last_sent_velocities

theorem velOk_zero : velOk Vel.zero := ⟨Or.inl rfl, Or.inl rfl, Or.inl rfl⟩

theorem modifierOk_clamp (q : ℚ) :
    modifierOk (max MIN_SPEED_MODIFIER_LIMIT (min MAX_SPEED_MODIFIER_LIMIT q)) := by
  refine ⟨le_max_left _ _, max_le ?_ (min_le_left _ _)⟩
  norm_num [MIN_SPEED_MODIFIER_LIMIT, MAX_SPEED_MODIFIER_LIMIT]

theorem Inv_init (n d : ℕ) (q : ℚ) : Inv (init n d q) :=
  ⟨modifierOk_clamp q, velOk_zero⟩

theorem modifierOk_up {m : ℚ} (h : modifierOk m) :
    modifierOk (min MAX_SPEED_MODIFIER_LIMIT (m + SPEED_MODIFIER_INCREMENT_STEP)) := by
  obtain ⟨h1, h2⟩ := h
  unfold modifierOk MIN_SPEED_MODIFIER_LIMIT MAX_SPEED_MODIFIER_LIMIT
    SPEED_MODIFIER_INCREMENT_STEP at *
  exact ⟨le_min (by norm_num) (by linarith), min_le_left _ _⟩

theorem modifierOk_down {m : ℚ} (h : modifierOk m) :
    modifierOk (max MIN_SPEED_MODIFIER_LIMIT (m - SPEED_MODIFIER_INCREMENT_STEP)) := by
  obtain ⟨h1, h2⟩ := h
  unfold modifierOk MIN_SPEED_MODIFIER_LIMIT MAX_SPEED_MODIFIER_LIMIT
    SPEED_MODIFIER_INCREMENT_STEP at *
  exact ⟨le_max_left _ _, max_le (by norm_num) (by linarith)⟩

theorem modifierOk_update {m : ℚ} (h : modifierOk m) (b1 b2 : Bool) :
    modifierOk (dpad_speed_modifier_update m b1 b2) := by
  cases b1 <;> cases b2 <;> simp [dpad_speed_modifier_update]
  · exact h
  · exact modifierOk_down h
  · exact modifierOk_up h
  · exact modifierOk_down (modifierOk_up h)

theorem modifierOk_dpad (d : DpadEvents) {s : MGPState}
    (h : modifierOk s.current_speed_modifier) :
    modifierOk (process_dpad_events d s).current_speed_modifier :=
  modifierOk_update h _ _

theorem velCompOk_axis (raw val m : ℚ) (hm : MIN_SPEED_MODIFIER_LIMIT ≤ m)
    (hv : |val| = |raw|) :
    velCompOk ((if JOYSTICK_DEADZONE < |raw| then val else 0) * m) := by
  by_cases hdz : JOYSTICK_DEADZONE < |raw|
  · right
    have hm0 : (0 : ℚ) < m :=
      lt_of_lt_of_le (by norm_num [MIN_SPEED_MODIFIER_LIMIT]) hm
    rw [if_pos hdz, abs_mul, hv, abs_of_pos hm0]
    unfold sendThreshold
    unfold JOYSTICK_DEADZONE at hdz
    unfold MIN_SPEED_MODIFIER_LIMIT at hm
    nlinarith [abs_nonneg raw]
  · left
    rw [if_neg hdz, zero_mul]

theorem velOk_compute (s : MGPState) (p : GamepadPayload)
    (h : modifierOk s.current_speed_modifier) :
    velOk (compute_velocities s p) := by
  unfold compute_velocities velOk
  dsimp only
  exact ⟨velCompOk_axis p.left_stick.y p.left_stick.y _ h.1 rfl,
    velCompOk_axis p.left_stick.x (-p.left_stick.x) _ h.1 (abs_neg _),
    velCompOk_axis p.right_stick.x (-p.right_stick.x) _ h.1 (abs_neg _)⟩

theorem Inv_dead_man {s : MGPState} (h : Inv s) : Inv (dead_man_branch s).1 := by
  unfold dead_man_branch
  split_ifs
  · exact ⟨h.1, velOk_zero⟩
  · exact h
  · exact h

theorem Inv_payload {s : MGPState} (p : GamepadPayload) (h : Inv s) :
    Inv (process_payload_branch s p).1 := by
  unfold process_payload_branch
  dsimp only
  have hm3 : modifierOk
      ((process_action_button_events p.action_button_events
        (process_dpad_events p.dpad_events s)).current_speed_modifier) :=
    modifierOk_dpad p.dpad_events h.1
  split_ifs
  · exact ⟨hm3, velOk_compute _ p hm3⟩
  · exact ⟨hm3, h.2⟩

theorem Inv_step (e : MGPEvent) {s : MGPState} (h : Inv s) : Inv (step s e).1 := by
  cases e with
  | updateGamepadState p =>
    simp only [step]
    split_ifs
    · exact h
    · exact ⟨h.1, h.2⟩
  | triggerEmergencyStop => exact ⟨h.1, velOk_zero⟩
  | clearEmergencyStop => exact ⟨h.1, h.2⟩
  | loopIteration =>
    simp only [step]
    split_ifs with hE hmove hnew
    · exact ⟨h.1, velOk_zero⟩
    · exact h
    · rcases hlp : s.latest_gamepad_payload with _ | p
      · simp only [hlp]
        exact Inv_dead_man ⟨h.1, h.2⟩
      · simp only [hlp]
        exact Inv_payload p ⟨h.1, h.2⟩
    · exact Inv_dead_man h

theorem run_cons (s : MGPState) (e : MGPEvent) (es : List MGPEvent) :
    run s (e :: es) =
      ((run (step s e).1 es).1, (step s e).2 ++ (run (step s e).1 es).2) := rfl

theorem Inv_run (events : List MGPEvent) {s : MGPState} (h : Inv s) :
    Inv (run s events).1 := by
  induction events generalizing s with
  | nil => exact h
  | cons e es ih => exact ih (Inv_step e h)

/-- Every velocity command of the dead-man branch is the zero triple. -/
theorem dead_man_call_zero (s1 : MGPState) :
    ∀ c ∈ (dead_man_branch s1).2, ∀ v, c.cmd = HwCmd.setBaseVelocities v →
      v = Vel.zero := by
  unfold dead_man_branch
  split_ifs
  · intro c hc v hv
    simp only [List.mem_singleton] at hc
    subst hc
    simpa using hv.symm
  · intro c hc
    simp at hc
  · intro c hc
    simp at hc

/-- Velocity commands of the payload branch are tagged with the (unchanged)
e-stop flag of the state entering the branch. -/
theorem payload_call_flag (s1 : MGPState) (p : GamepadPayload) :
    ∀ c ∈ (process_payload_branch s1 p).2,
      c.estopFlagAtCall = s1.emergency_stop_active := by
  unfold process_payload_branch
  dsimp only
  split_ifs
  · intro c hc
    simp only [List.mem_singleton] at hc
    subst hc
    rfl
  · intro c hc
    simp at hc

/-- Emission tags of the dead-man branch carry the (unset) e-stop flag. -/
theorem dead_man_call_flag (s1 : MGPState) :
    ∀ c ∈ (dead_man_branch s1).2,
      c.estopFlagAtCall = s1.emergency_stop_active := by
  unfold dead_man_branch
  split_ifs
  · intro c hc
    simp only [List.mem_singleton] at hc
    subst hc
    rfl
  · intro c hc
    simp at hc
  · intro c hc
    simp at hc

/-- Per-event safety: a velocity call made while the internal e-stop flag is
set is the zero triple. -/
theorem step_estop_call_zero (s : MGPState) (e : MGPEvent) :
    ∀ c ∈ (step s e).2, c.estopFlagAtCall = true →
      ∀ v, c.cmd = HwCmd.setBaseVelocities v → v = Vel.zero := by
  intro c hc hflag v hcmd
  cases e with
  | updateGamepadState p =>
    simp only [step] at hc
    split_ifs at hc <;> simp at hc
  | triggerEmergencyStop =>
    simp only [step, List.mem_cons, List.not_mem_nil, or_false] at hc
    rcases hc with rfl | rfl
    · exact absurd hcmd (by simp)
    · simp only [HwCmd.setBaseVelocities.injEq] at hcmd
      exact hcmd.symm
  | clearEmergencyStop =>
    simp only [step] at hc
    simp at hc
  | loopIteration =>
    simp only [step] at hc
    split_ifs at hc with hE hmove hnew
    · simp only [List.mem_singleton] at hc
      subst hc
      simpa using hcmd.symm
    · simp at hc
    · rcases hlp : s.latest_gamepad_payload with _ | p <;> simp only [hlp] at hc
      · have := dead_man_call_flag _ c hc
        rw [hflag] at this
        exact absurd this.symm (by simpa using hE)
      · have := payload_call_flag _ p c hc
        rw [hflag] at this
        exact absurd this.symm (by simpa using hE)
    · have := dead_man_call_flag _ c hc
      rw [hflag] at this
      exact absurd this.symm (by simpa using hE)

/-- Trace-level safety: over any event sequence, every velocity call made
while the internal e-stop flag is set is the zero triple. -/
theorem run_estop_call_zero (s : MGPState) (events : List MGPEvent) :
    ∀ c ∈ (run s events).2, c.estopFlagAtCall = true →
      ∀ v, c.cmd = HwCmd.setBaseVelocities v → v = Vel.zero := by
  induction events generalizing s with
  | nil =>
    intro c hc
    simp [run] at hc
  | cons e es ih =>
    intro c hc hflag v hcmd
    rw [run_cons] at hc
    rcases List.mem_append.mp hc with h | h
    · exact step_estop_call_zero s e c h hflag v hcmd
    · exact ih (step s e).1 c h hflag v hcmd

theorem any_eps_of_velOk_ne_zero {v : Vel} (hv : velOk v) (hne : v ≠ Vel.zero) :
    any_velocity_above_eps v = true := by
  obtain ⟨h1, h2, h3⟩ := hv
  have hone : v.vx ≠ 0 ∨ v.vy ≠ 0 ∨ v.vtheta ≠ 0 := by
    by_contra hall
    push_neg at hall
    obtain ⟨e1, e2, e3⟩ := hall
    exact hne (by cases v; simp_all [Vel.zero])
  unfold any_velocity_above_eps
  rcases hone with h | h | h
  · rcases h1 with h0 | hgt
    · exact absurd h0 h
    · simp [hgt]
  · rcases h2 with h0 | hgt
    · exact absurd h0 h
    · simp [hgt]
  · rcases h3 with h0 | hgt
    · exact absurd h0 h
    · simp [hgt]

theorem any_eps_zero : any_velocity_above_eps Vel.zero = false := by
  simp [any_velocity_above_eps, Vel.zero, sendThreshold]

end MotionGamePad

/-! ### Concrete example states and payloads used by witnesses -/

def egDpadNone : DpadEvents := ⟨false, false, false, false⟩

def egActionsNone : ActionButtonEvents := ⟨false, false, false, false⟩

/-- A movement payload: left stick pushed half way up, no buttons. -/
def egMovePayload : GamepadPayload where
  left_stick := ⟨0, 1/2⟩
  right_stick := ⟨0, 0⟩
  dpad_events := egDpadNone
  action_button_events := egActionsNone
  stick_button_states := ⟨false, false⟩

/-- The same movement payload with L3 held down. -/
def egL3Payload : GamepadPayload :=
  { egMovePayload with stick_button_states := ⟨true, false⟩ }

/-- A `MotionGamePad` whose internal emergency-stop flag is set. -/
def egEStopState : MGPState :=
  { MotionGamePad.init 0 0 DEFAULT_SPEED_MODIFIER_INIT with emergency_stop_active := true }

/-! ### Claim C1 -/

/-- Claim C1, amended: over every event sequence, any velocity triple passed
to the hardware controller while the internal emergency-stop flag is set
equals `(0,0,0)`; but a payload arriving while the flag is set is ignored
entirely (`update_gamepad_state` returns early) and causes no velocity
output at all. -/
theorem claim_C1 :
    ∀ (s : MGPState) (events : List MotionGamePad.MGPEvent),
      (∀ c ∈ (MotionGamePad.run s events).2, c.estopFlagAtCall = true →
        ∀ v, c.cmd = HwCmd.setBaseVelocities v → v = Vel.zero)
      ∧ (∀ p : GamepadPayload, s.emergency_stop_active = true →
          MotionGamePad.step s (.updateGamepadState p) = (s, [])) := by
  intro s events
  refine ⟨MotionGamePad.run_estop_call_zero s events, ?_⟩
  intro p hE
  simp only [MotionGamePad.step, hE, if_true]

/-- Claim C1, counterexample to the literal statement: a payload arriving
while the internal emergency-stop flag is set causes no output whatsoever,
in particular no zero-velocity output. -/
theorem claim_C1_counterexample :
    egEStopState.emergency_stop_active = true ∧
    (MotionGamePad.step egEStopState (.updateGamepadState egMovePayload)).2 = [] ∧
    ¬ ∃ c ∈ (MotionGamePad.step egEStopState (.updateGamepadState egMovePayload)).2,
        c.cmd = HwCmd.setBaseVelocities Vel.zero := by
  refine ⟨rfl, ?_, ?_⟩
  · simp [MotionGamePad.step, egEStopState]
  · simp [MotionGamePad.step, egEStopState]

/-- Witness for claim C1: the amended theorem applied at a concrete trace
(an emergency-stop trigger) and at a concrete ignored payload. -/
theorem claim_C1_witness :
    Vel.zero = Vel.zero ∧
    MotionGamePad.step egEStopState (.updateGamepadState egMovePayload) =
      (egEStopState, []) := by
  constructor
  · exact (claim_C1 egEStopState [MotionGamePad.MGPEvent.triggerEmergencyStop]).1
      ⟨true, HwCmd.setBaseVelocities Vel.zero⟩
      (by simp [MotionGamePad.run, MotionGamePad.step]) rfl Vel.zero rfl
  · exact (claim_C1 egEStopState []).2 egMovePayload rfl

/-! ### Claim C3 -/

/-- Claim C3: the dead-man wait uses the 350 ms constant, and in gamepad mode
(e-stop flag unset), for every state reachable from a fresh `MotionGamePad`,
a timed-out loop iteration (no new payload) emits exactly one zero-velocity
command when the last sent triple was non-zero, and emits nothing when the
last sent triple was already zero. -/
theorem claim_C3 :
    GAMEPAD_DATA_TIMEOUT_SEC = 35/100 ∧
    ∀ (numLayers defaultLayer : ℕ) (m0 : ℚ) (events : List MotionGamePad.MGPEvent) (s : MGPState),
      s = (MotionGamePad.run (MotionGamePad.init numLayers defaultLayer m0) events).1 →
      s.emergency_stop_active = false →
      s.new_data_event = false →
      ((s.last_sent_velocities ≠ Vel.zero →
          MotionGamePad.step s .loopIteration =
            ({ s with last_sent_velocities := Vel.zero },
             [⟨false, HwCmd.setBaseVelocities Vel.zero⟩]))
        ∧ (s.last_sent_velocities = Vel.zero →
            MotionGamePad.step s .loopIteration = (s, []))) := by
  refine ⟨rfl, ?_⟩
  intro nL dL m0 events s hs hE hN
  have hInv : MotionGamePad.Inv s :=
    hs ▸ MotionGamePad.Inv_run events (MotionGamePad.Inv_init nL dL m0)
  constructor
  · intro hne
    have hany := MotionGamePad.any_eps_of_velOk_ne_zero hInv.2 hne
    simp [MotionGamePad.step, MotionGamePad.dead_man_branch, hE, hN, hany]
  · intro heq
    have hany : MotionGamePad.any_velocity_above_eps s.last_sent_velocities = false := by
      rw [heq]
      exact MotionGamePad.any_eps_zero
    simp [MotionGamePad.step, MotionGamePad.dead_man_branch, hE, hN, hany]

/-- The two-event trace behind the C3 witness: one movement payload arrives
and is processed by one loop iteration. -/
def egTraceEvents : List MotionGamePad.MGPEvent :=
  [.updateGamepadState egMovePayload, .loopIteration]

/-- The state reached by `egTraceEvents` from a fresh arbiter. -/
def egDeadManState : MGPState :=
  (MotionGamePad.run (MotionGamePad.init 0 0 DEFAULT_SPEED_MODIFIER_INIT) egTraceEvents).1

theorem egDeadManState_eval :
    egDeadManState =
      { emergency_stop_active := false
        latest_gamepad_payload := none
        new_data_event := false
        last_sent_velocities := ⟨1/4, 0, 0⟩
        current_speed_modifier := 1/2
        current_animation_layer := 0
        num_animation_layers := 0
        prev_dpad_events := some egDpadNone
        prev_action_button_events := some egActionsNone } := by
  unfold egDeadManState egTraceEvents
  norm_num [MotionGamePad.run, MotionGamePad.step, MotionGamePad.init,
    MotionGamePad.process_payload_branch, MotionGamePad.process_dpad_events,
    MotionGamePad.process_action_button_events, MotionGamePad.compute_velocities,
    MotionGamePad.should_send_velocities, MotionGamePad.dead_man_branch,
    MotionGamePad.dpad_speed_modifier_update, MotionGamePad.dpad_layer_update,
    egMovePayload, egDpadNone, egActionsNone, Vel.zero,
    DEFAULT_SPEED_MODIFIER_INIT, MIN_SPEED_MODIFIER_LIMIT, MAX_SPEED_MODIFIER_LIMIT,
    JOYSTICK_DEADZONE, sendThreshold, SPEED_MODIFIER_INCREMENT_STEP,
    abs_of_nonneg, min_def, max_def]

/-- Witness for claim C3: the theorem applied to the concrete reachable state
`egDeadManState`, whose last sent triple `(1/4, 0, 0)` is non-zero. -/
theorem claim_C3_witness :
    MotionGamePad.step egDeadManState .loopIteration =
      ({ egDeadManState with last_sent_velocities := Vel.zero },
       [⟨false, HwCmd.setBaseVelocities Vel.zero⟩]) :=
  (claim_C3.2 0 0 DEFAULT_SPEED_MODIFIER_INIT egTraceEvents egDeadManState rfl
      (by rw [egDeadManState_eval])
      (by rw [egDeadManState_eval])).1
    (by rw [egDeadManState_eval]; simp [Vel.zero, Vel.mk.injEq])

/-! ### Claim C2 -/

/-- The `MotionManager` right after construction (mode `"idle"`). -/
def egIdleMM : MMState := MotionManager.init 0 0 DEFAULT_SPEED_MODIFIER_INIT

/-- A `MotionManager` in emergency-stop mode with its gamepad controller
flagged. -/
def egEStopMM : MMState :=
  { current_control_mode := "emergency_stopped", gamepad_controller := egEStopState }

/-- Claim C2: a payload with L3 or R3 pressed handled outside e-stop switches
the mode to `emergency_stopped`, signals the hardware e-stop and issues the
zero velocity; payloads with L3 or R3 held keep the mode at
`emergency_stopped` without further effect; the first payload with both
buttons released returns the mode to `gamepad` and that same payload is
stored for normal movement processing. -/
theorem claim_C2 (s : MMState) (p : GamepadPayload) :
    ((p.stick_button_states.l3_pressed || p.stick_button_states.r3_pressed) = true →
      s.current_control_mode ≠ "emergency_stopped" →
      MotionManager.handle_gamepad_payload_from_tablet s p =
        ({ current_control_mode := "emergency_stopped",
           gamepad_controller :=
             { s.gamepad_controller with
               emergency_stop_active := true
               latest_gamepad_payload := none
               new_data_event := true
               last_sent_velocities := Vel.zero } },
         [⟨true, HwCmd.hardwareEmergencyStop⟩, ⟨true, HwCmd.setBaseVelocities Vel.zero⟩]))
    ∧ (s.current_control_mode = "emergency_stopped" →
        (p.stick_button_states.l3_pressed || p.stick_button_states.r3_pressed) = true →
        MotionManager.handle_gamepad_payload_from_tablet s p = (s, []))
    ∧ (s.current_control_mode = "emergency_stopped" →
        (p.stick_button_states.l3_pressed || p.stick_button_states.r3_pressed) = false →
        MotionManager.handle_gamepad_payload_from_tablet s p =
          ({ current_control_mode := "gamepad",
             gamepad_controller :=
               { s.gamepad_controller with
                 emergency_stop_active := false
                 latest_gamepad_payload := some p
                 new_data_event := true } },
           [])) := by
  refine ⟨?_, ?_, ?_⟩
  · intro h1 h2
    simp [MotionManager.handle_gamepad_payload_from_tablet,
      MotionManager.trigger_internal_emergency_stop, MotionGamePad.step, h1, h2]
  · intro h2 h1
    simp [MotionManager.handle_gamepad_payload_from_tablet,
      MotionManager.clear_internal_emergency_stop, MotionGamePad.step, h1, h2]
  · intro h2 h1
    simp [MotionManager.handle_gamepad_payload_from_tablet,
      MotionManager.clear_internal_emergency_stop, MotionGamePad.step, h1, h2]

/-- Witness for claim C2: the three cases applied at concrete states and
payloads. -/
theorem claim_C2_witness :
    (MotionManager.handle_gamepad_payload_from_tablet egIdleMM
        egL3Payload).1.current_control_mode = "emergency_stopped" ∧
    MotionManager.handle_gamepad_payload_from_tablet egEStopMM egL3Payload =
      (egEStopMM, []) ∧
    (MotionManager.handle_gamepad_payload_from_tablet egEStopMM
        egMovePayload).1.current_control_mode = "gamepad" := by
  refine ⟨?_, ?_, ?_⟩
  · rw [(claim_C2 egIdleMM egL3Payload).1 rfl (by decide)]
  · exact (claim_C2 egEStopMM egL3Payload).2.1 rfl rfl
  · rw [(claim_C2 egEStopMM egMovePayload).2.2 rfl rfl]

/-! ### Animation-tag stripping: `SystemComposer._strip_animation_tags`

`Init_System.py` lines 219-224:

```
cleaned_text = re.sub(
  r'\s*\^runTag\([^)]*\)\s*|\s*\^startTag\([^)]*\)\s*|\s*\^waitTag\([^)]*\)\s*',
  ' ', text_with_tags)
cleaned_text = re.sub(r'\s+', ' ', cleaned_text).strip()
```

The model works on `List Char`.  On this particular pattern the regex engine
is deterministic: the greedy `\s*` runs are maximal (a shorter run would have
to be followed by `^`, but the next character after a shorter run is a space),
and the greedy `[^)]*` is maximal (a shorter run would have to be followed by
`)`, but every character it skipped is a non-`)`), so no backtracking can
produce a different match and the matcher below computes exactly the regex
match length at a position. -/

namespace SystemComposer

/-- Python `\s` on ASCII text: space, tab, newline, carriage return,
vertical tab, form feed. -/
def isPySpace (c : Char) : Bool :=
  c = ' ' || c = '\t' || c = '\n' || c = '\r' || c = '\x0b' || c = '\x0c'

/-- Length of the maximal run of whitespace at the front (the greedy `\s*`). -/
def countSpaces : List Char → Nat
  | [] => 0
  | c :: cs => if isPySpace c then countSpaces cs + 1 else 0

/-- Matches a literal prefix and returns the remaining text, or `none`. -/
def stripLit : List Char → List Char → Option (List Char)
  | [], cs => some cs
  | _ :: _, [] => none
  | p :: ps, c :: cs => if p = c then stripLit ps cs else none

def kwRunTag : List Char := ['r', 'u', 'n', 'T', 'a', 'g']

def kwStartTag : List Char := ['s', 't', 'a', 'r', 't', 'T', 'a', 'g']

def kwWaitTag : List Char := ['w', 'a', 'i', 't', 'T', 'a', 'g']

def kwRun : List Char := ['r', 'u', 'n']

def kwStart : List Char := ['s', 't', 'a', 'r', 't']

def kwWait : List Char := ['w', 'a', 'i', 't']

def kwTagOpen : List Char := ['T', 'a', 'g', '(']

/-- Matches `[^)]*\)\s*` (the tag body after the opening paren, the closing
paren and the trailing greedy `\s*`) at the front; returns the matched
length. -/
def matchBodyClose : List Char → Option Nat
  | [] => none
  | c :: cs =>
    if c = ')' then some (1 + countSpaces cs)
    else (matchBodyClose cs).map (fun m => 1 + m)

/-- Matches `\^KW\([^)]*\)\s*` at the front of `cs` for a fixed keyword `KW`;
returns the matched length. -/
def matchTagAt (kw : List Char) (cs : List Char) : Option Nat :=
  match stripLit ('^' :: (kw ++ ['('])) cs with
  | some rest => (matchBodyClose rest).map (fun m => kw.length + 2 + m)
  | none => none

/-- The three alternatives of the source regex, tried left to right exactly as
`re` tries `\^runTag\(..|\^startTag\(..|\^waitTag\(..` at one position (the
common leading `\s*` is factored out in `tryMatchTag`). -/
def matchTagAlternatives (r : List Char) : Option Nat :=
  match matchTagAt kwRunTag r with
  | some m => some m
  | none =>
    match matchTagAt kwStartTag r with
    | some m => some m
    | none => matchTagAt kwWaitTag r

/-- The length of the source-regex match at this position, if any: greedy
leading `\s*`, then one of the three `\^..Tag\([^)]*\)\s*` alternatives. -/
def tryMatchTag (cs : List Char) : Option Nat :=
  let n := countSpaces cs
  (matchTagAlternatives (cs.drop n)).map (fun m => n + m)

/-- The spec's factored regex `\^(run|start|wait)Tag\([^)]*\)\s*` (without the
common leading `\s*`): a caret, then the first of the three keywords that
matches — at most one of `run`/`start`/`wait` can match at a position because
their first characters differ, so committing to the first is exactly the
regex alternation — then `Tag\([^)]*\)\s*`. -/
def matchTagFactored (r : List Char) : Option Nat :=
  match stripLit ['^'] r with
  | none => none
  | some r1 =>
    let kwSel : Option (Nat × List Char) :=
      match stripLit kwRun r1 with
      | some rest => some (3, rest)
      | none =>
        match stripLit kwStart r1 with
        | some rest => some (5, rest)
        | none =>
          match stripLit kwWait r1 with
          | some rest => some (4, rest)
          | none => none
    match kwSel with
    | none => none
    | some (k, rest1) =>
      match stripLit kwTagOpen rest1 with
      | some rest2 => (matchBodyClose rest2).map (fun m => 1 + k + 4 + m)
      | none => none

/-- The match length of the claim's regex
`\s*\^(run|start|wait)Tag\([^)]*\)\s*` at this position, if any. -/
def tryMatchTagSpecRegex (cs : List Char) : Option Nat :=
  let n := countSpaces cs
  (matchTagFactored (cs.drop n)).map (fun m => n + m)

/-- The `re.sub(pattern, ' ', text)` scan for a pattern that never matches the
empty string: at each position, replace a match by a single space and resume
after it, otherwise copy one character.  The fuel argument only serves
structural recursion; `scanWith_stable` shows any fuel of at least the text
length gives the same result. -/
def scanWith (f : List Char → Option Nat) : Nat → List Char → List Char
  | 0, cs => cs
  | _ + 1, [] => []
  | fuel + 1, c :: cs1 =>
    match f (c :: cs1) with
    | some n => ' ' :: scanWith f fuel ((c :: cs1).drop n)
    | none => c :: scanWith f fuel cs1

/-- `re.sub(r'\s+', ' ', t)`: every maximal whitespace run becomes a single
space. -/
def collapseSpaces : List Char → List Char
  | [] => []
  | [c] => if isPySpace c then [' '] else [c]
  | c1 :: c2 :: cs =>
    if isPySpace c1 && isPySpace c2 then collapseSpaces (c2 :: cs)
    else (if isPySpace c1 then ' ' else c1) :: collapseSpaces (c2 :: cs)

def dropLeadingSpaces : List Char → List Char
  | [] => []
  | c :: cs => if isPySpace c then dropLeadingSpaces cs else c :: cs

/-- Python `str.strip()`: drop whitespace at both ends. -/
def stripEnds (cs : List Char) : List Char :=
  ((dropLeadingSpaces ((dropLeadingSpaces cs).reverse)).reverse)

/-- `SystemComposer._strip_animation_tags` (lines 219-224): empty text maps
to the empty string; otherwise replace every source-regex match by one space,
collapse whitespace runs and strip the ends. -/
def strip_animation_tags (t : List Char) : List Char :=
  if t = [] then []
  else stripEnds (collapseSpaces (scanWith tryMatchTag t.length t))

/-- The same pipeline driven by the claim's factored regex. -/
def strip_animation_tags_spec_regex (t : List Char) : List Char :=
  if t = [] then []
  else stripEnds (collapseSpaces (scanWith tryMatchTagSpecRegex t.length t))

/-! Equivalence of the source regex (three full alternatives) with the spec's
factored regex, and robustness of the scan in its fuel argument. -/

theorem stripLit_append (a b cs : List Char) :
    stripLit (a ++ b) cs = (stripLit a cs).bind (stripLit b) := by
  induction a generalizing cs with
  | nil => simp [stripLit]
  | cons x xs ih =>
    cases cs with
    | nil => simp [stripLit]
    | cons c cs1 =>
      by_cases h : x = c <;> simp [stripLit, h, ih]

theorem stripLit_start_none_of_run {r1 rest : List Char}
    (h : stripLit kwRun r1 = some rest) :
    stripLit kwStart r1 = none ∧ stripLit kwWait r1 = none := by
  cases r1 with
  | nil => simp [stripLit, kwRun] at h
  | cons c r2 =>
    have hc : 'r' = c := by
      by_contra hne
      simp [stripLit, kwRun, hne] at h
    subst hc
    constructor <;> simp [stripLit, kwStart, kwWait]

theorem stripLit_wait_none_of_start {r1 rest : List Char}
    (h : stripLit kwStart r1 = some rest) :
    stripLit kwWait r1 = none := by
  cases r1 with
  | nil => simp [stripLit, kwStart] at h
  | cons c r2 =>
    have hc : 's' = c := by
      by_contra hne
      simp [stripLit, kwStart, hne] at h
    subst hc
    simp [stripLit, kwWait]

theorem matchTag_alts_eq_factored (r : List Char) :
    matchTagAlternatives r = matchTagFactored r := by
  unfold matchTagAlternatives matchTagFactored matchTagAt
  have e1 : ('^' :: (kwRunTag ++ ['('])) = ['^'] ++ (kwRun ++ kwTagOpen) := rfl
  have e2 : ('^' :: (kwStartTag ++ ['('])) = ['^'] ++ (kwStart ++ kwTagOpen) := rfl
  have e3 : ('^' :: (kwWaitTag ++ ['('])) = ['^'] ++ (kwWait ++ kwTagOpen) := rfl
  rw [e1, e2, e3, stripLit_append, stripLit_append, stripLit_append]
  cases h0 : stripLit ['^'] r with
  | none => simp
  | some r1 =>
    simp only [Option.some_bind]
    rw [stripLit_append, stripLit_append, stripLit_append]
    cases hrun : stripLit kwRun r1 with
    | some restR =>
      obtain ⟨hs, hw⟩ := stripLit_start_none_of_run hrun
      cases htag : stripLit kwTagOpen restR with
      | none => simp [hs, hw, htag, kwRunTag]
      | some rest2 =>
        simp only [hs, hw, htag, kwRunTag]
        cases hb : matchBodyClose rest2 <;> simp [hb, hs, hw, htag, kwRunTag]
    | none =>
      cases hstart : stripLit kwStart r1 with
      | some restS =>
        have hw := stripLit_wait_none_of_start hstart
        cases htag : stripLit kwTagOpen restS with
        | none => simp [hrun, hw, htag, kwStartTag]
        | some rest2 =>
          cases hb : matchBodyClose rest2 <;> simp [hb, hrun, hw, htag, kwStartTag]
      | none =>
        cases hwait : stripLit kwWait r1 with
        | some restW =>
          cases htag : stripLit kwTagOpen restW with
          | none => simp [hrun, hstart, htag, kwWaitTag]
          | some rest2 =>
            cases hb : matchBodyClose rest2 <;> simp [hb, hrun, hstart, htag, kwWaitTag]
        | none => simp [hrun, hstart, hwait]

theorem tryMatchTag_eq_spec (cs : List Char) :
    tryMatchTag cs = tryMatchTagSpecRegex cs := by
  unfold tryMatchTag tryMatchTagSpecRegex
  simp only [matchTag_alts_eq_factored]


theorem matchTagAt_pos {kw cs : List Char} {m : Nat}
    (h : matchTagAt kw cs = some m) : 1 ≤ m := by
  unfold matchTagAt at h
  rcases hs : stripLit ('^' :: (kw ++ ['('])) cs with _ | rest <;> rw [hs] at h
  · simp at h
  · simp at h
    obtain ⟨a, _, hsum⟩ := h
    omega

theorem matchTagAlternatives_pos {r : List Char} {m : Nat}
    (h : matchTagAlternatives r = some m) : 1 ≤ m := by
  unfold matchTagAlternatives at h
  rcases h1 : matchTagAt kwRunTag r with _ | m1 <;> rw [h1] at h
  · rcases h2 : matchTagAt kwStartTag r with _ | m2 <;> rw [h2] at h
    · exact matchTagAt_pos h
    · simp only [Option.some.injEq] at h
      exact h ▸ matchTagAt_pos h2
  · simp only [Option.some.injEq] at h
    exact h ▸ matchTagAt_pos h1

theorem tryMatchTag_pos {cs : List Char} {n : Nat} (h : tryMatchTag cs = some n) :
    1 ≤ n := by
  simp only [tryMatchTag] at h
  rcases hm : matchTagAlternatives (cs.drop (countSpaces cs)) with _ | m <;> rw [hm] at h
  · simp at h
  · simp at h
    have := matchTagAlternatives_pos hm
    omega

theorem scanWith_stable (f : List Char → Option Nat)
    (hf : ∀ cs n, f cs = some n → 1 ≤ n) :
    ∀ (fuel fuel' : Nat) (cs : List Char), cs.length ≤ fuel → cs.length ≤ fuel' →
      scanWith f fuel cs = scanWith f fuel' cs := by
  intro fuel
  induction fuel with
  | zero =>
    intro fuel' cs h h'
    have hcs : cs = [] := List.length_eq_zero.mp (Nat.le_zero.mp h)
    subst hcs
    cases fuel' <;> rfl
  | succ n ih =>
    intro fuel' cs h h'
    cases cs with
    | nil => cases fuel' <;> rfl
    | cons c cs1 =>
      cases fuel' with
      | zero => simp at h'
      | succ n' =>
        cases hm : f (c :: cs1) with
        | some k =>
          have hk := hf _ _ hm
          have hlen : ((c :: cs1).drop k).length ≤ n := by
            simp only [List.length_drop, List.length_cons] at *
            omega
          have hlen' : ((c :: cs1).drop k).length ≤ n' := by
            simp only [List.length_drop, List.length_cons] at *
            omega
          simp only [scanWith, hm]
          exact congrArg (List.cons ' ') (ih n' _ hlen hlen')
        | none =>
          have hlen : cs1.length ≤ n := by
            simp only [List.length_cons] at h
            omega
          have hlen' : cs1.length ≤ n' := by
            simp only [List.length_cons] at h'
            omega
          simp only [scanWith, hm]
          exact congrArg (List.cons c) (ih n' _ hlen hlen')

theorem strip_animation_tags_eq_spec_regex (t : List Char) :
    strip_animation_tags t = strip_animation_tags_spec_regex t := by
  unfold strip_animation_tags strip_animation_tags_spec_regex
  rw [show tryMatchTag = tryMatchTagSpecRegex from funext tryMatchTag_eq_spec]

/-- String-typed wrapper of `_strip_animation_tags`. -/
def strip_animation_tags_str (t : String) : String :=
  String.mk (strip_animation_tags t.toList)

end SystemComposer

/-! ### Conversation core: `ConversationManager.get_ai_response`
(`ConversationManager.py`, lines 252-321) -/

/-- One persisted interaction, keeping the fields the claims are about: the
role passed to `add_interaction`, the text inside the stored JSON payload and
its `model_used` field (present only on assistant turns). -/
structure Interaction where
  role : String
  text : String
  model_used : Option String
  deriving DecidableEq, Repr

/-- The parts of a `ConversationManager`'s state that `get_ai_response`
reads: the current conversation id, whether a `PromptBuilder` and an AI
client are present, the active backend type string and the model info used
in `model_used` (`default_model` for GPT, the GGUF basename for local). -/
structure CMState where
  current_conversation_id : Option Nat
  prompt_builder_present : Bool
  ai_client_present : Bool
  current_ai_backend_type : String
  model_info : String
  deriving DecidableEq, Repr

/-- Outcome of the external effects of one `get_ai_response` call, each of
which the source wraps in its own try/except: prompt building
(lines 272-282), the user-turn database write (lines 285-290), the backend
`generate_response` call (lines 295-300) which either raises or returns an
optional string, and the assistant-turn database write (lines 306-320). -/
structure AICallEnv where
  prompt_build_raises : Bool
  user_save_raises : Bool
  backend_result : Except Unit (Option String)
  assistant_save_raises : Bool
  deriving Repr

/-- The tagged apology produced when the backend call raises (line 300). -/
def cm_apology (backend : String) : String :=
  "^runTag(sad)Tuve un problema con mi IA (" ++ backend ++ ")."

/-- The fallback reply when the backend returns nothing (line 315). -/
def cm_fallback_response : String :=
  "^runTag(confused)No estoy seguro de que responder."

/-- `ConversationManager.get_ai_response` (lines 252-321): the early guard
returns (no conversation, no prompt builder, client missing, backend
`"none"`), then prompt building, the user-turn persist, the backend call
with its apology fallback, and the assistant-turn persist (with
`model_used = "<backend>_<model>"`, or `"fallback_empty"` when the backend
returned nothing).  Returns the reply and the interactions persisted, in
write order.  In the source every return path yields a non-`None` string and
no exception escapes the method. -/
def get_ai_response (s : CMState) (user_input : String) (_source : String)
    (env : AICallEnv) : String × List Interaction :=
  if s.current_conversation_id = none then
    ("^runTag(error)Error: No hay una conversacion activa.", [])
  else if s.prompt_builder_present = false then
    ("^runTag(error)Error: La personalidad no esta configurada correctamente.", [])
  else if s.ai_client_present = false ∧ s.current_ai_backend_type ≠ "none" then
    ("^runTag(error)Error: El motor de IA no esta inicializado.", [])
  else if s.current_ai_backend_type = "none" ∨ s.ai_client_present = false then
    ("El modo de IA esta desactivado.", [])
  else if env.prompt_build_raises then
    ("^runTag(embarrassed)Tuve un problema preparando el contexto de mi respuesta.", [])
  else
    let userWrites : List Interaction :=
      if env.user_save_raises then [] else [⟨"user", user_input, none⟩]
    let raw : Option String :=
      match env.backend_result with
      | .error _ => some (cm_apology s.current_ai_backend_type)
      | .ok r => r
    match raw with
    | some resp =>
      if resp = "" then
        (cm_fallback_response,
         userWrites ++ (if env.assistant_save_raises then []
           else [⟨"assistant", cm_fallback_response, some "fallback_empty"⟩]))
      else
        (resp,
         userWrites ++ (if env.assistant_save_raises then []
           else [⟨"assistant", resp,
             some (s.current_ai_backend_type ++ "_" ++ s.model_info)⟩]))
    | none =>
      (cm_fallback_response,
       userWrites ++ (if env.assistant_save_raises then []
         else [⟨"assistant", cm_fallback_response, some "fallback_empty"⟩]))

/-! ### Orchestrator: `SystemComposer` input processing and STT adapters
(`Init_System.py`, lines 231-300, 367-395) -/

/-- Externally visible calls made by the orchestrator while processing:
stopping/starting the recognizer, WebSocket frames (system, output, STT
result), the speech-controller call, and a `_process_input_for_conversation`
invocation (made by the GUI-input adapter). -/
inductive ComposerEffect where
  | sttStopCall
  | sttStartCall
  | sendSystemMessage (sender level text : String)
  | sendOutput (sender text original_input_source : String)
  | sendPartialSttResult (text : String) (isFinal : Bool)
  | speakCall (annotated_text : String)
  | processInputCall (text source : String)
  deriving DecidableEq, Repr

/-- The parts of a `SystemComposer`'s state the modelled methods touch:
the busy event (`robot_is_processing_or_replying`; set means free), the
recognizer's running state and which collaborators were instantiated. -/
structure ComposerState where
  robot_is_processing_or_replying : Bool
  stt_running : Bool
  stt_present : Bool
  conversation_manager_present : Bool
  tablet_interface_present : Bool
  asc_present : Bool
  deriving DecidableEq, Repr

/-- Environment of one `_process_input_for_conversation` call: the
conversation manager's effect outcomes plus whether the output broadcast or
the speech call raise (`send_output` raising lands in the outer `except`,
the speech call has its own inner `except` at line 267). -/
structure ProcEnv where
  ai : AICallEnv
  send_output_raises : Bool
  speak_raises : Bool
  deriving Repr

/-- `SystemComposer._process_input_for_conversation` (lines 231-278).
Returns the new composer state, the visible effects in order, and the
interactions persisted by the conversation manager.  The `finally` block
(lines 274-278) always re-sets the busy event and restarts the recognizer
when it was paused at entry. -/
def process_input_for_conversation (s : ComposerState) (cm : CMState)
    (user_text : String) (source : String) (has_images : Bool) (env : ProcEnv) :
    ComposerState × List ComposerEffect × List Interaction :=
  if user_text = "" ∧ has_images = false then (s, [], [])
  else if s.conversation_manager_present = false then
    (s,
     if s.tablet_interface_present then
       [.sendSystemMessage "SystemError" "error"
         "Error interno: Gestor de conversacion no disponible."]
     else [], [])
  else if s.robot_is_processing_or_replying = false then
    (s,
     if s.tablet_interface_present then
       [.sendSystemMessage "Umebot" "info"
         "Estoy procesando otra solicitud en este momento..."]
     else [], [])
  else
    let was_stt_running := s.stt_present && s.stt_running
    let stopEffects : List ComposerEffect := if was_stt_running then [.sttStopCall] else []
    let s1 := if was_stt_running then { s with stt_running := false } else s
    let s2 := { s1 with robot_is_processing_or_replying := false }
    let r := get_ai_response cm user_text source env.ai
    let resp := r.1
    let tryEffects : List ComposerEffect :=
      if resp ≠ "" then
        if s.tablet_interface_present && env.send_output_raises then
          [.sendSystemMessage "SystemError" "error"
            "Hubo un problema al procesar el mensaje."]
        else
          (if s.tablet_interface_present then
            [.sendOutput "Umebot" (SystemComposer.strip_animation_tags_str resp) source]
          else [])
          ++ (if s.asc_present then [.speakCall resp] else [])
      else
        if s.tablet_interface_present then
          [.sendOutput "Umebot" "No estoy seguro de como responder a eso." source]
        else []
    let s3 := { s2 with robot_is_processing_or_replying := true }
    let restart := s.stt_present && was_stt_running && !s3.stt_running
    let s4 := if restart then { s3 with stt_running := true } else s3
    let startEffects : List ComposerEffect := if restart then [.sttStartCall] else []
    (s4, stopEffects ++ tryEffects ++ startEffects, r.2)

/-- `SystemComposer._handle_final_stt_segment` (lines 290-300): when the
tablet interface exists and the robot is free, the final transcript is
forwarded to the UI as a `partial_stt_result` frame with `is_final=True`;
when the robot is busy (or the interface is missing) nothing is sent. -/
def handle_final_stt_segment (s : ComposerState) (recognized_text : String) :
    List ComposerEffect :=
  if s.tablet_interface_present = false then []
  else if s.robot_is_processing_or_replying then
    [.sendPartialSttResult recognized_text true]
  else []

/-- `STT_System._internal_text_callback` (lines 153-161) composed with the
callback installed by `_setup_main_callbacks` (line 376): a recognized final
is stripped; when empty it is suppressed, otherwise it is delivered to
`_handle_final_stt_segment`.  Returns the delivered text (if any) and the
resulting composer effects. -/
def stt_final_to_composer (s : ComposerState) (recognized_text : String) :
    Option String × List ComposerEffect :=
  let final_text :=
    String.mk (SystemComposer.stripEnds recognized_text.toList)
  if final_text = "" then (none, [])
  else (some final_text, handle_final_stt_segment s final_text)

/-- `SystemComposer._adapter_gui_input_to_conversation` (lines 303-306):
the GUI-input adapter is the place that calls
`_process_input_for_conversation`, with the payload's text, source and
images. -/
def adapter_gui_input_to_conversation (user_text source : String) :
    List ComposerEffect :=
  [.processInputCall user_text source]

/-- Whether an effect is an `output` frame broadcast. -/
def isOutputFrame : ComposerEffect → Bool
  | .sendOutput _ _ _ => true
  | _ => false

theorem cm_apology_ne_empty (backend : String) : cm_apology backend ≠ "" := by
  intro h
  have hl := congrArg String.length h
  simp [cm_apology, String.length_append] at hl
  exact absurd hl.1.1 (by decide)

theorem cm_fallback_ne_empty : cm_fallback_response ≠ "" := by decide

/-- `get_ai_response` never returns an empty reply: every return path yields
a non-empty canned string or a non-empty backend reply. -/
theorem get_ai_response_ne_empty (s : CMState) (u src : String) (env : AICallEnv) :
    (get_ai_response s u src env).1 ≠ "" := by
  unfold get_ai_response
  split_ifs <;> (try decide) <;>
  · rcases hb : env.backend_result with e | ro
    · have ha := cm_apology_ne_empty s.current_ai_backend_type
      simp [hb, ha]
    · rcases ro with _ | rstr
      · simp [hb, cm_fallback_ne_empty]
      · by_cases hr : rstr = ""
        · simp [hb, hr, cm_fallback_ne_empty]
        · simp [hb, hr]

/-! ### Claims C4, C5, C6, C10 -/

/-- A composer with every collaborator present, robot free, STT running. -/
def egComposerFree : ComposerState where
  robot_is_processing_or_replying := true
  stt_running := true
  stt_present := true
  conversation_manager_present := true
  tablet_interface_present := true
  asc_present := true

/-- The same composer marked busy. -/
def egComposerBusy : ComposerState :=
  { egComposerFree with robot_is_processing_or_replying := false }

/-- A conversation manager with the backend set to `"none"`. -/
def egCmNone : CMState where
  current_conversation_id := some 1
  prompt_builder_present := true
  ai_client_present := false
  current_ai_backend_type := "none"
  model_info := ""

/-- A fully configured conversation manager on the GPT backend. -/
def egCmReady : CMState where
  current_conversation_id := some 1
  prompt_builder_present := true
  ai_client_present := true
  current_ai_backend_type := "openai_gpt"
  model_info := "gpt-4o"

/-- An environment where every external effect succeeds and the backend
answers with an annotated reply. -/
def egEnvOk : ProcEnv where
  ai :=
    { prompt_build_raises := false
      user_save_raises := false
      backend_result := .ok (some "^runTag(joy)Hola!")
      assistant_save_raises := false }
  send_output_raises := false
  speak_raises := false

/-- An environment where the backend call raises. -/
def egEnvBackendRaises : ProcEnv :=
  { egEnvOk with ai := { egEnvOk.ai with backend_result := .error () } }

/-- Claim C10: `_process_input_for_conversation` always restores the busy
event and the recognizer's running state, whatever the outcomes of prompt
building, the persistence writes, the backend call, the broadcast and the
speech call: an input's processing can never leave the system permanently
busy or with recognition permanently paused. -/
theorem claim_C10 (s : ComposerState) (cm : CMState) (user_text source : String)
    (has_images : Bool) (env : ProcEnv) :
    (process_input_for_conversation s cm user_text source has_images
        env).1.robot_is_processing_or_replying = s.robot_is_processing_or_replying
    ∧ (process_input_for_conversation s cm user_text source has_images
        env).1.stt_running = s.stt_running := by
  by_cases h1 : user_text = "" ∧ has_images = false
  · simp [process_input_for_conversation, h1]
  · by_cases h2 : s.conversation_manager_present = false
    · simp [process_input_for_conversation, h1, h2]
    · by_cases h3 : s.robot_is_processing_or_replying = false
      · simp [process_input_for_conversation, h1, h2, h3]
      · have hfree : s.robot_is_processing_or_replying = true := by simpa using h3
        by_cases hw : (s.stt_present && s.stt_running) = true
        · obtain ⟨hp, hr⟩ := (Bool.and_eq_true _ _).mp hw
          constructor <;>
            simp [process_input_for_conversation, h1, h2, h3, hw, hp, hr, hfree]
        · constructor <;>
            simp [process_input_for_conversation, h1, h2, h3, hw, hfree]

/-- Shape of `get_ai_response` when a backend is active, a conversation is
set, and prompt building and both database writes succeed: the reply is
non-empty and exactly the user and assistant interactions are persisted, in
that order. -/
theorem get_ai_response_main (cm : CMState) (u src : String) (env : AICallEnv)
    (hconv : cm.current_conversation_id ≠ none)
    (hpb : cm.prompt_builder_present = true)
    (hclient : cm.ai_client_present = true)
    (hbackend : cm.current_ai_backend_type ≠ "none")
    (hprompt : env.prompt_build_raises = false)
    (husave : env.user_save_raises = false)
    (hasave : env.assistant_save_raises = false) :
    ∃ resp model,
      get_ai_response cm u src env =
        (resp, [⟨"user", u, none⟩, ⟨"assistant", resp, some model⟩]) ∧ resp ≠ "" := by
  have g2 : ¬(cm.prompt_builder_present = false) := by simp [hpb]
  have g3 : ¬(cm.ai_client_present = false ∧ cm.current_ai_backend_type ≠ "none") := by
    simp [hclient]
  have g4 : ¬(cm.current_ai_backend_type = "none" ∨ cm.ai_client_present = false) := by
    push_neg
    exact ⟨hbackend, by simp [hclient]⟩
  have g5 : ¬(env.prompt_build_raises = true) := by simp [hprompt]
  unfold get_ai_response
  rcases hb : env.backend_result with e | ro
  · refine ⟨cm_apology cm.current_ai_backend_type,
      cm.current_ai_backend_type ++ "_" ++ cm.model_info, ?_,
      cm_apology_ne_empty _⟩
    simp [hconv, g2, g3, g4, g5, husave, hasave, hb,
      cm_apology_ne_empty cm.current_ai_backend_type]
  · rcases ro with _ | rstr
    · exact ⟨cm_fallback_response, "fallback_empty",
        by simp [hconv, g2, g3, g4, g5, husave, hasave, hb], cm_fallback_ne_empty⟩
    · by_cases hr : rstr = ""
      · exact ⟨cm_fallback_response, "fallback_empty",
          by simp [hconv, g2, g3, g4, g5, husave, hasave, hb, hr], cm_fallback_ne_empty⟩
      · exact ⟨rstr, cm.current_ai_backend_type ++ "_" ++ cm.model_info,
          by simp [hconv, g2, g3, g4, g5, husave, hasave, hb, hr], hr⟩

/-- Shape of `get_ai_response` when additionally the backend call raises:
the tagged apology is returned and persisted as the assistant turn with
`model_used = "<backend>_<model>"`. -/
theorem get_ai_response_backend_raises (cm : CMState) (u src : String)
    (env : AICallEnv)
    (hconv : cm.current_conversation_id ≠ none)
    (hpb : cm.prompt_builder_present = true)
    (hclient : cm.ai_client_present = true)
    (hbackend : cm.current_ai_backend_type ≠ "none")
    (hprompt : env.prompt_build_raises = false)
    (husave : env.user_save_raises = false)
    (hasave : env.assistant_save_raises = false)
    (e : Unit) (he : env.backend_result = .error e) :
    get_ai_response cm u src env =
      (cm_apology cm.current_ai_backend_type,
       [⟨"user", u, none⟩,
        ⟨"assistant", cm_apology cm.current_ai_backend_type,
         some (cm.current_ai_backend_type ++ "_" ++ cm.model_info)⟩]) := by
  have g2 : ¬(cm.prompt_builder_present = false) := by simp [hpb]
  have g3 : ¬(cm.ai_client_present = false ∧ cm.current_ai_backend_type ≠ "none") := by
    simp [hclient]
  have g4 : ¬(cm.current_ai_backend_type = "none" ∨ cm.ai_client_present = false) := by
    push_neg
    exact ⟨hbackend, by simp [hclient]⟩
  have g5 : ¬(env.prompt_build_raises = true) := by simp [hprompt]
  unfold get_ai_response
  simp [hconv, g2, g3, g4, g5, husave, hasave, he,
    cm_apology_ne_empty cm.current_ai_backend_type]

/-- Claim C4, amended: for every input request processed while the busy
condition is available, with conversation manager and tablet interface
present, provided an AI backend is active, a conversation is set, and
prompt building and the two database writes succeed, exactly one `output`
frame is broadcast and exactly two interactions are persisted, the user one
first, the assistant one second; when the backend raises, the tagged
apology is still persisted as the assistant turn with
`model_used = "<backend>_<model>"`. -/
theorem claim_C4 (s : ComposerState) (cm : CMState) (user_text source : String)
    (env : ProcEnv)
    (hfree : s.robot_is_processing_or_replying = true)
    (hcm : s.conversation_manager_present = true)
    (htab : s.tablet_interface_present = true)
    (ht : user_text ≠ "")
    (hconv : cm.current_conversation_id ≠ none)
    (hpb : cm.prompt_builder_present = true)
    (hclient : cm.ai_client_present = true)
    (hbackend : cm.current_ai_backend_type ≠ "none")
    (hprompt : env.ai.prompt_build_raises = false)
    (husave : env.ai.user_save_raises = false)
    (hasave : env.ai.assistant_save_raises = false)
    (hsend : env.send_output_raises = false) :
    (((process_input_for_conversation s cm user_text source false env).2.1.filter
        isOutputFrame).length = 1)
    ∧ (∃ resp model,
        (process_input_for_conversation s cm user_text source false env).2.2 =
          [⟨"user", user_text, none⟩, ⟨"assistant", resp, some model⟩])
    ∧ (∀ e : Unit, env.ai.backend_result = .error e →
        (process_input_for_conversation s cm user_text source false env).2.2 =
          [⟨"user", user_text, none⟩,
           ⟨"assistant", cm_apology cm.current_ai_backend_type,
            some (cm.current_ai_backend_type ++ "_" ++ cm.model_info)⟩]) := by
  obtain ⟨resp, model, hshape, hne⟩ :=
    get_ai_response_main cm user_text source env.ai hconv hpb hclient hbackend
      hprompt husave hasave
  have h2 : ¬(s.conversation_manager_present = false) := by simp [hcm]
  have h3 : ¬(s.robot_is_processing_or_replying = false) := by simp [hfree]
  refine ⟨?_, ⟨resp, model, ?_⟩, ?_⟩
  · by_cases hw : (s.stt_present && s.stt_running) = true
    · obtain ⟨hp, hr⟩ := (Bool.and_eq_true _ _).mp hw
      by_cases hasc : s.asc_present = true <;>
        simp [process_input_for_conversation, ht, h2, h3, hshape, hne, htab, hsend,
          hw, hp, hr, hasc, isOutputFrame]
    · by_cases hasc : s.asc_present = true <;>
        simp [process_input_for_conversation, ht, h2, h3, hshape, hne, htab, hsend,
          hw, hasc, isOutputFrame]
  · simp [process_input_for_conversation, ht, h2, h3, hshape]
  · intro e he
    have herr := get_ai_response_backend_raises cm user_text source env.ai hconv hpb
      hclient hbackend hprompt husave hasave e he
    simp [process_input_for_conversation, ht, h2, h3, herr]

/-- Claim C4, counterexample to the literal statement: with the busy
condition available and the AI backend set to `"none"`, the request still
broadcasts exactly one `output` frame (the canned "El modo de IA esta
desactivado." reply) but persists zero interactions, not two. -/
theorem claim_C4_counterexample :
    egComposerFree.robot_is_processing_or_replying = true ∧
    ((process_input_for_conversation egComposerFree egCmNone "hola" "gui" false
        egEnvOk).2.1.filter isOutputFrame).length = 1 ∧
    (process_input_for_conversation egComposerFree egCmNone "hola" "gui" false
        egEnvOk).2.2 = [] := by
  refine ⟨rfl, ?_, ?_⟩ <;> rfl

/-- Witness for claim C4: the amended theorem applied at a concrete
configured composer, both with a successful backend reply and with a
raising backend. -/
theorem claim_C4_witness :
    ((process_input_for_conversation egComposerFree egCmReady "hola" "gui" false
        egEnvOk).2.1.filter isOutputFrame).length = 1 ∧
    (process_input_for_conversation egComposerFree egCmReady "hola" "gui" false
        egEnvBackendRaises).2.2 =
      [⟨"user", "hola", none⟩,
       ⟨"assistant", cm_apology "openai_gpt", some "openai_gpt_gpt-4o"⟩] := by
  constructor
  · exact (claim_C4 egComposerFree egCmReady "hola" "gui" egEnvOk rfl rfl rfl
      (by decide) (by decide) rfl rfl (by decide) rfl rfl rfl rfl).1
  · have h := (claim_C4 egComposerFree egCmReady "hola" "gui" egEnvBackendRaises
      rfl rfl rfl (by decide) (by decide) rfl rfl (by decide) rfl rfl rfl rfl).2.2 () rfl
    simpa [egCmReady, cm_apology] using h

/-- Claim C6: the GUI-visible text equals the annotated reply with every
match of `\s*\^(run|start|wait)Tag\([^)]*\)\s*` replaced by a single space
and whitespace collapsed (the source's three-alternative regex computes
exactly that), while the speech controller receives the unmodified annotated
reply. -/
theorem claim_C6 :
    (∀ t : List Char,
      SystemComposer.strip_animation_tags t =
        SystemComposer.strip_animation_tags_spec_regex t)
    ∧ ∀ (s : ComposerState) (cm : CMState) (user_text source : String) (env : ProcEnv),
        s.robot_is_processing_or_replying = true →
        s.conversation_manager_present = true →
        s.tablet_interface_present = true →
        s.asc_present = true →
        user_text ≠ "" →
        env.send_output_raises = false →
        ∃ pre post,
          (process_input_for_conversation s cm user_text source false env).2.1 =
            pre ++
              [ComposerEffect.sendOutput "Umebot"
                 (SystemComposer.strip_animation_tags_str
                   (get_ai_response cm user_text source env.ai).1) source,
               ComposerEffect.speakCall (get_ai_response cm user_text source env.ai).1]
              ++ post := by
  refine ⟨SystemComposer.strip_animation_tags_eq_spec_regex, ?_⟩
  intro s cm user_text source env hfree hcm htab hasc ht hsend
  have hne := get_ai_response_ne_empty cm user_text source env.ai
  have h2 : ¬(s.conversation_manager_present = false) := by simp [hcm]
  have h3 : ¬(s.robot_is_processing_or_replying = false) := by simp [hfree]
  by_cases hw : (s.stt_present && s.stt_running) = true
  · refine ⟨[ComposerEffect.sttStopCall], [ComposerEffect.sttStartCall], ?_⟩
    obtain ⟨hp, hr⟩ := (Bool.and_eq_true _ _).mp hw
    simp [process_input_for_conversation, ht, h2, h3, hne, htab, hsend, hasc,
      hw, hp, hr]
  · refine ⟨[], [], ?_⟩
    simp [process_input_for_conversation, ht, h2, h3, hne, htab, hsend, hasc, hw]

/-- Witness for claim C6: the regex equivalence evaluated at a concrete
annotated string, and the data flow applied at a concrete request. -/
theorem claim_C6_witness :
    SystemComposer.strip_animation_tags ("Hola ^runTag(joy) mundo".toList) =
      SystemComposer.strip_animation_tags_spec_regex ("Hola ^runTag(joy) mundo".toList) ∧
    ∃ pre post,
      (process_input_for_conversation egComposerFree egCmReady "hola" "gui" false
          egEnvOk).2.1 =
        pre ++
          [ComposerEffect.sendOutput "Umebot"
             (SystemComposer.strip_animation_tags_str
               (get_ai_response egCmReady "hola" "gui" egEnvOk.ai).1) "gui",
           ComposerEffect.speakCall (get_ai_response egCmReady "hola" "gui" egEnvOk.ai).1]
          ++ post :=
  ⟨claim_C6.1 ("Hola ^runTag(joy) mundo".toList),
   claim_C6.2 egComposerFree egCmReady "hola" "gui" egEnvOk rfl rfl rfl rfl
     (by decide) rfl⟩

/-- Claim C5, amended: a recognized final with non-empty stripped text is
delivered to `_handle_final_stt_segment`, which, when the busy condition is
available, forwards it to the connected clients as a `partial_stt_result`
frame with `is_final=true` (the UI is responsible for re-sending it as an
`input` message); while busy, the final is dropped.  The handler does not
call `_process_input_for_conversation`. -/
theorem claim_C5 (s : ComposerState) (text : String) :
    (s.tablet_interface_present = true → s.robot_is_processing_or_replying = true →
      handle_final_stt_segment s text = [.sendPartialSttResult text true])
    ∧ (s.robot_is_processing_or_replying = false →
      handle_final_stt_segment s text = [] ∨
        s.tablet_interface_present = false)
    ∧ (∀ raw : String,
        String.mk (SystemComposer.stripEnds raw.toList) ≠ "" →
        stt_final_to_composer s raw =
          (some (String.mk (SystemComposer.stripEnds raw.toList)),
           handle_final_stt_segment s
             (String.mk (SystemComposer.stripEnds raw.toList)))) := by
  refine ⟨?_, ?_, ?_⟩
  · intro htab hfree
    simp [handle_final_stt_segment, htab, hfree]
  · intro hbusy
    by_cases htab : s.tablet_interface_present = true
    · left
      simp [handle_final_stt_segment, htab, hbusy]
    · right
      simpa using htab
  · intro raw hne
    simp only [String.toList] at hne
    simp [stt_final_to_composer, String.toList, hne]

/-- Claim C5, counterexample to the literal statement: with the busy
condition available, the final-STT handler emits only the
`partial_stt_result` frame to the UI; it never calls `process_input` (there
is no `processInputCall` effect, in particular none with source
`"stt_auto"`). -/
theorem claim_C5_counterexample :
    egComposerFree.robot_is_processing_or_replying = true ∧
    handle_final_stt_segment egComposerFree "test" =
      [.sendPartialSttResult "test" true] ∧
    ¬ (ComposerEffect.processInputCall "test" "stt_auto" ∈
        handle_final_stt_segment egComposerFree "test") := by
  refine ⟨rfl, rfl, by decide⟩

/-- Witness for claim C5: the amended theorem applied at a concrete free
composer and a concrete raw final with surrounding whitespace. -/
theorem claim_C5_witness :
    handle_final_stt_segment egComposerFree "test" =
      [.sendPartialSttResult "test" true] ∧
    stt_final_to_composer egComposerFree " hola " =
      (some "hola", handle_final_stt_segment egComposerFree "hola") := by
  constructor
  · exact (claim_C5 egComposerFree "test").1 rfl rfl
  · exact (claim_C5 egComposerFree " hola ").2.2 " hola " (by decide)

/-! ### Tablet wire protocol: `tabletserver/Messages.py`,
`tabletserver/Endpoints.py` and `TabletInterface.handle_client_message` -/

namespace Messages

/-- A parsed JSON value as produced by `json.loads`. -/
inductive JVal where
  | jnull
  | jbool (b : Bool)
  | jnum (q : ℚ)
  | jstr (s : String)
  | jarr (xs : List JVal)
  | jobj (fields : List (String × JVal))

/-- Python dict lookup on an object built by `json.loads`
(duplicate keys: the last occurrence wins, like `dict` insertion). -/
def jlookup (fields : List (String × JVal)) (key : String) : Option JVal :=
  fields.foldl (fun acc kv => if kv.1 = key then some kv.2 else acc) none

/-- `isinstance(x, (int, float))`: JSON numbers, and booleans too, because
Python `bool` is a subclass of `int`. -/
def isPyNumeric : JVal → Bool
  | .jnum _ => true
  | .jbool _ => true
  | _ => false

/-- `isinstance(x, bool)`. -/
def isPyBool : JVal → Bool
  | .jbool _ => true
  | _ => false

/-- Python truthiness of a `json.loads` value. -/
def jTruthy : JVal → Bool
  | .jnull => false
  | .jbool b => b
  | .jnum q => decide (q ≠ 0)
  | .jstr s => decide (s ≠ "")
  | .jarr xs => !xs.isEmpty
  | .jobj fs => !fs.isEmpty

def MSG_TYPE_INPUT : String := "input"

def MSG_TYPE_OUTPUT : String := "output"

def MSG_TYPE_SYSTEM : String := "system"

def MSG_TYPE_CONFIG : String := "config"

def MSG_TYPE_CURRENT_CONFIGURATION : String := "currentConfiguration"

def MSG_TYPE_CONFIG_CONFIRMATION : String := "config_confirmation"

def MSG_TYPE_PARTIAL_STT_RESULT : String := "partial_stt_result"

def MSG_TYPE_GAMEPAD_STATE : String := "gamepad_state"

/-- Python `repr` of a list of strings, as interpolated by the f-strings in
the button-group validation messages (e.g. `['y']`). -/
def pyListRepr (keys : List String) : String :=
  "[" ++ String.intercalate ", " (keys.map (fun k => "'" ++ k ++ "'")) ++ "]"

/-- `_is_valid_joystick_object` (Messages.py, lines 181-190): the value must
be a dict containing numeric `x` and `y`. -/
def is_valid_joystick_object (obj : Option JVal) (stick_name : String) :
    Except String Unit :=
  match obj with
  | some (.jobj fs) =>
    match jlookup fs "x", jlookup fs "y" with
    | some xv, some yv =>
      if isPyNumeric xv && isPyNumeric yv then .ok ()
      else .error ("Los valores 'x' e 'y' de '" ++ stick_name ++ "' deben ser numericos.")
    | _, _ => .error ("'" ++ stick_name ++ "' debe contener las claves 'x' e 'y'.")
  | _ => .error ("'" ++ stick_name ++ "' debe ser un objeto (diccionario).")

/-- `_is_valid_button_object` (Messages.py, lines 192-202): the value must be
a dict containing all expected keys with boolean values. -/
def is_valid_button_object (obj : Option JVal) (button_group_name : String)
    (expected_keys : List String) : Except String Unit :=
  match obj with
  | some (.jobj fs) =>
    let missing_keys := expected_keys.filter (fun k => (jlookup fs k).isNone)
    if missing_keys ≠ [] then
      .error ("A '" ++ button_group_name ++ "' le faltan las claves: " ++
        pyListRepr missing_keys ++ ".")
    else
      let non_bool_keys := expected_keys.filter
        (fun k => !isPyBool ((jlookup fs k).getD .jnull))
      if non_bool_keys ≠ [] then
        .error ("Los valores en '" ++ button_group_name ++
          "' deben ser booleanos. Claves no booleanas: " ++ pyListRepr non_bool_keys ++ ".")
      else .ok ()
  | _ => .error ("'" ++ button_group_name ++ "' debe ser un objeto (diccionario).")

/-- The five required top-level keys of a `gamepad_state` payload, in the
order the validation loop checks them (Messages.py, line 216). -/
def gamepadRequiredKeys : List String :=
  ["left_stick", "right_stick", "dpad_events", "action_button_events",
   "stick_button_states"]

/-- The five group validations of a `gamepad_state` payload, run in source
order inside the `try` block (Messages.py, lines 220-231). -/
def gamepadGroupChecks (pfields : List (String × JVal)) : Except String Unit := do
  let _ ← is_valid_joystick_object (jlookup pfields "left_stick") "payload.left_stick"
  let _ ← is_valid_joystick_object (jlookup pfields "right_stick") "payload.right_stick"
  let _ ← is_valid_button_object (jlookup pfields "dpad_events") "payload.dpad_events"
    ["up", "down", "left", "right"]
  let _ ← is_valid_button_object (jlookup pfields "action_button_events")
    "payload.action_button_events" ["a", "b", "x", "y"]
  let _ ← is_valid_button_object (jlookup pfields "stick_button_states")
    "payload.stick_button_states" ["l3_pressed", "r3_pressed"]
  pure ()

/-- The `gamepad_state` payload validation (Messages.py, lines 215-233): the
required-keys loop raises on the first missing key (without the wrapping
prefix), and only then the per-group checks run, their error re-raised with
the `El payload del mensaje ...` prefix. -/
def validateGamepadPayload (pfields : List (String × JVal)) : Except String Unit :=
  match gamepadRequiredKeys.find? (fun k => (jlookup pfields k).isNone) with
  | some k =>
    .error ("Mensaje '" ++ MSG_TYPE_GAMEPAD_STATE ++ "' invalido: 'payload." ++ k ++
      "' es faltante.")
  | none =>
    match gamepadGroupChecks pfields with
    | .ok _ => .ok ()
    | .error e =>
      .error ("El payload del mensaje '" ++ MSG_TYPE_GAMEPAD_STATE ++
        "' es invalido: " ++ e)

/-- `deserialize_client_message` (Messages.py, lines 157-236) on an already
`json.loads`-parsed value: the message must be an object whose `type` is a
truthy string; for the three client-to-server types the `payload` must be a
present dict and is validated per type; any other type string passes with no
further validation.  Returns the message or the `ValueError` text. -/
def deserialize_client_message (parsed : JVal) : Except String JVal :=
  match parsed with
  | .jobj fields =>
    let payload := jlookup fields "payload"
    match jlookup fields "type" with
    | some (.jstr t) =>
      if t = "" then
        .error "El mensaje JSON es invalido: la clave 'type' es faltante o no es un string."
      else
        if t = MSG_TYPE_INPUT ∨ t = MSG_TYPE_CONFIG ∨ t = MSG_TYPE_GAMEPAD_STATE then
          match payload with
          | none =>
            .error ("El mensaje JSON es invalido: 'payload' es faltante para el tipo '"
              ++ t ++ "'.")
          | some .jnull =>
            .error ("El mensaje JSON es invalido: 'payload' es faltante para el tipo '"
              ++ t ++ "'.")
          | some (.jobj pfields) =>
            if t = MSG_TYPE_INPUT then
              match jlookup pfields "text" with
              | some (.jstr _) => .ok parsed
              | _ =>
                .error ("Mensaje '" ++ MSG_TYPE_INPUT ++
                  "' invalido: 'payload.text' es faltante o no es un string.")
            else if t = MSG_TYPE_CONFIG then
              match jlookup pfields "config_item" with
              | some (.jstr _) =>
                if (jlookup pfields "value").isSome then .ok parsed
                else .error ("Mensaje '" ++ MSG_TYPE_CONFIG ++
                  "' invalido: 'payload.value' es faltante.")
              | _ =>
                .error ("Mensaje '" ++ MSG_TYPE_CONFIG ++
                  "' invalido: 'payload.config_item' es faltante o no es un string.")
            else
              match validateGamepadPayload pfields with
              | .ok _ => .ok parsed
              | .error e => .error e
          | some _ =>
            .error ("El mensaje JSON es invalido: 'payload' no es un objeto (diccionario) para el tipo '"
              ++ t ++ "'.")
        else .ok parsed
    | _ =>
      .error "El mensaje JSON es invalido: la clave 'type' es faltante o no es un string."
  | _ => .error "El mensaje JSON debe ser un objeto (diccionario)."

end Messages

/-- A `system` frame as crafted by `craft_system_message` (detail omitted:
the modelled paths pass `detail=None`). -/
structure SystemFrame where
  sender : String
  level : String
  text : String

/-- Which installed callback `TabletInterface.handle_client_message` invokes
for a dispatched message. -/
inductive ClientDispatch where
  | inputCb (payload : Option Messages.JVal)
  | configCb (payload : Option Messages.JVal)
  | gamepadEstopCb
  | gamepadPayloadCb (payload : Option Messages.JVal)
  | ignoredUnknown (message_type : String)

/-- The L3/R3 extraction of `handle_client_message` (TabletInterface.py,
lines 183-184): `payload.get("stick_button_states", {})` then
`.get("l3_pressed", False)` / `.get("r3_pressed", False)` with Python
truthiness.  Non-dict payloads cannot reach this point for `gamepad_state`
(the deserializer rejected them). -/
def gamepadStickButtons (payload : Option Messages.JVal) : Bool × Bool :=
  match payload with
  | some (.jobj pf) =>
    match Messages.jlookup pf "stick_button_states" with
    | some (.jobj sf) =>
      (Messages.jTruthy ((Messages.jlookup sf "l3_pressed").getD (.jbool false)),
       Messages.jTruthy ((Messages.jlookup sf "r3_pressed").getD (.jbool false)))
    | _ => (false, false)
  | _ => (false, false)

/-- `TabletServerInterface.handle_client_message` (TabletInterface.py, lines
171-192): `input` and `config` go to their callbacks; `gamepad_state` goes
to the emergency-stop callback when L3 or R3 is truthy and to the payload
callback otherwise; every other type is only logged — no frame is sent. -/
def handle_client_message (message_type : String) (payload : Option Messages.JVal) :
    ClientDispatch :=
  if message_type = Messages.MSG_TYPE_INPUT then .inputCb payload
  else if message_type = Messages.MSG_TYPE_CONFIG then .configCb payload
  else if message_type = Messages.MSG_TYPE_GAMEPAD_STATE then
    let sticks := gamepadStickButtons payload
    if sticks.1 || sticks.2 then .gamepadEstopCb
    else .gamepadPayloadCb payload
  else .ignoredUnknown message_type

/-- Result of handling one received text frame in
`websocket_bidirectional_endpoint` (Endpoints.py, lines 79-100): at most one
system-error frame sent back to the sending client only, and at most one
dispatched callback. -/
structure FrameOutcome where
  errorToSender : Option SystemFrame
  dispatch : Option ClientDispatch

/-- One iteration of the endpoint's receive loop (Endpoints.py, lines
79-100), starting from the `json.loads` outcome (`Except.error e` is the
`JSONDecodeError` converted by `deserialize_client_message` into a
`ValueError` whose text embeds `e`): a `ValueError` is answered with a
`system` error frame to the sender; otherwise the message is dispatched via
`handle_client_message` with its `type` and `payload`. -/
def websocket_frame_step (parse_result : Except String Messages.JVal) : FrameOutcome :=
  match parse_result with
  | .error e =>
    { errorToSender := some ⟨"Servidor", "error",
        "Mensaje con formato invalido: El mensaje recibido no es un JSON valido: " ++ e⟩
      dispatch := none }
  | .ok parsed =>
    match Messages.deserialize_client_message parsed with
    | .error e =>
      { errorToSender := some ⟨"Servidor", "error", "Mensaje con formato invalido: " ++ e⟩
        dispatch := none }
    | .ok msg =>
      match msg with
      | .jobj fields =>
        match Messages.jlookup fields "type" with
        | some (.jstr t) =>
          { errorToSender := none
            dispatch := some (handle_client_message t (Messages.jlookup fields "payload")) }
        | _ => { errorToSender := none, dispatch := none }
      | _ => { errorToSender := none, dispatch := none }

/-! ### Claim C7 -/

/-- Claim C7, amended: a frame whose top-level `type` is an unrecognized
non-empty string (with an object payload) is NOT rejected — the deserializer
accepts it and the dispatcher only logs it, so no error frame is sent to the
client; the frames actually answered with a `system` error frame are the ones
whose deserialization raises, including unparseable JSON. -/
theorem claim_C7 (t : String) (pf : List (String × Messages.JVal))
    (ht : t ≠ "") (hin : t ≠ Messages.MSG_TYPE_INPUT)
    (hcf : t ≠ Messages.MSG_TYPE_CONFIG)
    (hgp : t ≠ Messages.MSG_TYPE_GAMEPAD_STATE) :
    websocket_frame_step (.ok (.jobj [("type", .jstr t), ("payload", .jobj pf)])) =
      { errorToSender := none
        dispatch := some (.ignoredUnknown t) } ∧
    ∀ e : String, websocket_frame_step (.error e) =
      { errorToSender := some ⟨"Servidor", "error",
          "Mensaje con formato invalido: El mensaje recibido no es un JSON valido: " ++ e⟩
        dispatch := none } := by
  have hin' : t ≠ "input" := hin
  have hcf' : t ≠ "config" := hcf
  have hgp' : t ≠ "gamepad_state" := hgp
  constructor
  · simp [websocket_frame_step, Messages.deserialize_client_message, Messages.jlookup,
      handle_client_message, Messages.MSG_TYPE_INPUT, Messages.MSG_TYPE_CONFIG,
      Messages.MSG_TYPE_GAMEPAD_STATE, ht, hin', hcf', hgp']
  · intro e
    rfl

/-- Claim C7, counterexample to the literal statement: the frame
`\x7b"type":"desconocido","payload":\x7b\x7d\x7d` has an unrecognized top-level
type, yet the server sends no error frame back — the message is merely
ignored by the dispatcher. -/
theorem claim_C7_counterexample :
    websocket_frame_step (.ok (.jobj [("type", Messages.JVal.jstr "desconocido"),
        ("payload", Messages.JVal.jobj [])])) =
      { errorToSender := none
        dispatch := some (.ignoredUnknown "desconocido") } := rfl

/-- Witness for claim C7: the amended theorem applied at the concrete unknown
type `"foo"` with an empty payload object. -/
theorem claim_C7_witness :
    websocket_frame_step (.ok (.jobj [("type", Messages.JVal.jstr "foo"),
        ("payload", Messages.JVal.jobj [])])) =
      { errorToSender := none
        dispatch := some (.ignoredUnknown "foo") } :=
  (claim_C7 "foo" [] (by decide) (by decide) (by decide) (by decide)).1

/-! ### Claim C8 -/

/-- The parsed form of the test frame
`\x7b"type":"gamepad_state","payload":\x7b"left_stick":\x7b"x":0\x7d\x7d\x7d`. -/
def egBadGamepadParsed : Messages.JVal :=
  .jobj [("type", .jstr "gamepad_state"),
         ("payload", .jobj [("left_stick", .jobj [("x", .jnum 0)])])]

/-- The same malformed `left_stick` object, but with the other four required
payload groups present and valid, so that the per-group validation is
reached. -/
def egBadLeftStickFullParsed : Messages.JVal :=
  .jobj [("type", .jstr "gamepad_state"),
         ("payload", .jobj
           [("left_stick", .jobj [("x", .jnum 0)]),
            ("right_stick", .jobj [("x", .jnum 0), ("y", .jnum 0)]),
            ("dpad_events", .jobj [("up", .jbool false), ("down", .jbool false),
              ("left", .jbool false), ("right", .jbool false)]),
            ("action_button_events", .jobj [("a", .jbool false), ("b", .jbool false),
              ("x", .jbool false), ("y", .jbool false)]),
            ("stick_button_states", .jobj [("l3_pressed", .jbool false),
              ("r3_pressed", .jbool false)])])]

/-- Claim C8, amended: deserializing the test frame fails, but with the
required-keys error naming `payload.right_stick` as missing — the loop over
the five required payload keys runs before any per-stick validation, so the
`left_stick`-missing-`y` message is never produced for this frame; the
endpoint still answers the sender with a single `system` error frame and
dispatches nothing (hence no motion state change).  The claimed
`payload.left_stick` message only appears once all five groups are present,
as on the completed frame. -/
theorem claim_C8 :
    websocket_frame_step (.ok egBadGamepadParsed) =
      { errorToSender := some ⟨"Servidor", "error",
          "Mensaje con formato invalido: Mensaje 'gamepad_state' invalido: 'payload.right_stick' es faltante."⟩
        dispatch := none } ∧
    Messages.deserialize_client_message egBadLeftStickFullParsed =
      .error "El payload del mensaje 'gamepad_state' es invalido: 'payload.left_stick' debe contener las claves 'x' e 'y'." :=
  ⟨rfl, rfl⟩

/-- Claim C8, counterexample to the literal statement: the validation error
for the test frame names `payload.right_stick` as the missing key; it does
not identify `payload.left_stick` as missing `y`. -/
theorem claim_C8_counterexample :
    Messages.deserialize_client_message egBadGamepadParsed =
      .error "Mensaje 'gamepad_state' invalido: 'payload.right_stick' es faltante." := rfl

/-! ### Claim C9: `audio/MicLocal.py` intake queue -/

namespace MicLocal

/-- `LocalMicHandler._audio_callback` (MicLocal.py, lines 235-244) acting on
the bounded intake queue `_raw_audio_queue` — a `queue.Queue(maxsize)` built
with `maxsize = raw_queue_size` (default 100): when the capture flag is not
set the frame is ignored; otherwise `put_nowait(indata.copy())` appends the
frame to the tail, except that on a full bounded queue (`0 < maxsize` and
`maxsize ≤ len`) it raises `queue.Full`, which the callback catches with a
debug log — the NEW frame is discarded and the queued frames are left
untouched. -/
def audio_callback {α : Type} (capture_active : Bool) (maxsize : Nat)
    (q : List α) (indata : α) : List α :=
  if !capture_active then q
  else if 0 < maxsize ∧ maxsize ≤ q.length then q
  else q ++ [indata]

end MicLocal

/-- Claim C9, amended: when a raw frame arrives while the bounded intake
queue is full, the NEWLY captured frame is discarded (with a debug log) and
the queue is left unchanged — no queued frame is dropped and the new frame
is not enqueued; only when the queue is not full is the frame appended at
the tail. -/
theorem claim_C9 {α : Type} (maxsize : Nat) (q : List α) (x : α)
    (hfull : 0 < maxsize ∧ maxsize ≤ q.length) :
    MicLocal.audio_callback true maxsize q x = q ∧
    ∀ q2 : List α, ¬(0 < maxsize ∧ maxsize ≤ q2.length) →
      MicLocal.audio_callback true maxsize q2 x = q2 ++ [x] := by
  constructor
  · simp [MicLocal.audio_callback, hfull]
  · intro q2 hnot
    simp [MicLocal.audio_callback, hnot]

/-- Claim C9, counterexample to the literal statement: with a full queue
`[1, 2]` of capacity 2, the callback on frame `3` neither drops the oldest
frame nor enqueues the new one — the result is `[1, 2]`, not `[2, 3]`, and
the new frame is absent. -/
theorem claim_C9_counterexample :
    MicLocal.audio_callback true 2 [1, 2] 3 ≠ [2, 3] ∧
    3 ∉ MicLocal.audio_callback true 2 ([1, 2] : List Nat) 3 := by
  decide

/-- Witness for claim C9: the amended theorem applied to the concrete full
queue `[1, 2]` of capacity 2 and, via its second half, to the non-full queue
`[1]`. -/
theorem claim_C9_witness :
    MicLocal.audio_callback true 2 [1, 2] 3 = [1, 2] ∧
    MicLocal.audio_callback true 2 ([1] : List Nat) 3 = [1, 3] := by
  constructor
  · exact (claim_C9 2 [1, 2] 3 (by decide)).1
  · exact (claim_C9 2 [1, 2] (3 : Nat) (by decide)).2 [1] (by decide)

end Umebot
